import Mathlib

/-!
Verification development for the openclaw-trustskill static security scanner.

The Python sources are shallowly embedded: pure functions become Lean
functions, the per-file analyzer pipelines become folds over explicit data,
Python `float` becomes `ℝ`, Python regular expressions become sequences of
character-class items with greedy backtracking (the source's patterns use no
construct beyond character classes with counted repetition and alternation
of literals, so this matcher has exactly the semantics of `re` on them),
and `ast.parse` is treated as an external oracle: analyzers that parse
receive an `Option PyModule` (with `none` standing for a `SyntaxError`).
-/

namespace TrustSkill

/-- Severity enum from `src/types.py` (`Severity`). -/
inductive Severity where
  | high | medium | low | info
deriving DecidableEq, Repr

/-- The `.value` string of each `Severity` member. -/
def Severity.value : Severity → String
  | .high => "HIGH"
  | .medium => "MEDIUM"
  | .low => "LOW"
  | .info => "INFO"

/-- Analysis mode enum from `src/types.py` (`AnalysisMode`). -/
inductive AnalysisMode where
  | fast | standard | deep
deriving DecidableEq, Repr

/-- One detected issue, from `src/types.py` (`SecurityIssue`).
Python `float` confidence is modelled as a real number. -/
structure SecurityIssue where
  level : Severity
  category : String
  description : String
  file : String
  line : Nat
  snippet : String
  confidence : ℝ

/-- Scan aggregate, from `src/types.py` (`ScanResult`). -/
structure ScanResult where
  skill_path : String
  files_scanned : Nat
  findings : List SecurityIssue
  scan_time : ℝ
  timestamp : String

/-- Per-severity counts, modelling the dict built by `ScanResult.risk_summary`
(keys HIGH/MEDIUM/LOW/INFO, all present even when zero). -/
structure RiskSummary where
  high : Nat
  medium : Nat
  low : Nat
  info : Nat
deriving DecidableEq, Repr

/-- The loop body of `ScanResult.risk_summary`:
`summary[finding.level.value] += 1`. -/
def bumpSummary (s : RiskSummary) (f : SecurityIssue) : RiskSummary :=
  match f.level with
  | .high => { s with high := s.high + 1 }
  | .medium => { s with medium := s.medium + 1 }
  | .low => { s with low := s.low + 1 }
  | .info => { s with info := s.info + 1 }

/-- `ScanResult.risk_summary` from `src/types.py`: count findings per severity. -/
def riskSummary (findings : List SecurityIssue) : RiskSummary :=
  findings.foldl bumpSummary ⟨0, 0, 0, 0⟩

/-- `ScanResult.security_assessment` from `src/types.py`. -/
def securityAssessment (findings : List SecurityIssue) : String :=
  let summary := riskSummary findings
  if summary.high > 0 then
    "🔴 CRITICAL: High-risk issues detected. Manual review required."
  else if summary.medium > 5 then
    "🟡 WARNING: Multiple medium-risk issues found. Review recommended."
  else if summary.medium > 0 then
    "🟢 CAUTION: Some medium-risk issues found. Review suggested."
  else
    "✅ SAFE: No significant security issues found."

/-! ## Character helpers (Python `str` semantics on the ASCII inputs used) -/

/-- Python whitespace set of `str.strip` / regex `\s` (ASCII part). -/
def isPyWs (c : Char) : Bool :=
  c = ' ' ∨ c = '\t' ∨ c = '\n' ∨ c = '\x0d' ∨ c = '\x0b' ∨ c = '\x0c'

/-- Regex `\w`: letters, digits, underscore (ASCII). -/
def isWordChar (c : Char) : Bool :=
  ('a' ≤ c ∧ c ≤ 'z') ∨ ('A' ≤ c ∧ c ≤ 'Z') ∨ ('0' ≤ c ∧ c ≤ '9') ∨ c = '_'

/-- Regex `\d`. -/
def isDigitChar (c : Char) : Bool := '0' ≤ c ∧ c ≤ '9'

def isAsciiLower (c : Char) : Bool := 'a' ≤ c ∧ c ≤ 'z'

def isAsciiUpper (c : Char) : Bool := 'A' ≤ c ∧ c ≤ 'Z'

def isAlnum (c : Char) : Bool := isAsciiLower c ∨ isAsciiUpper c ∨ isDigitChar c

/-- ASCII lower-casing, the effect of Python `str.lower` on the scanned text. -/
def pyToLower (c : Char) : Char :=
  if isAsciiUpper c then Char.ofNat (c.toNat + 32) else c

def lowerAll (cs : List Char) : List Char := cs.map pyToLower

/-- Python `str.strip()` on a character list. -/
def pyStrip (cs : List Char) : List Char :=
  ((cs.dropWhile isPyWs).reverse.dropWhile isPyWs).reverse

/-- Python `s.split("\n")` on a character list. -/
def splitNl : List Char → List (List Char)
  | [] => [[]]
  | c :: rest =>
    match splitNl rest with
    | [] => [[c]]
    | l :: ls => if c = '\n' then [] :: l :: ls else (c :: l) :: ls

/-- Is `needle` a contiguous prefix of `hay`? -/
def listStarts : List Char → List Char → Bool
  | [], _ => true
  | _ :: _, [] => false
  | a :: as_, b :: bs => a = b ∧ listStarts as_ bs

/-- Is `needle` a contiguous substring of `hay` (Python `in` on strings)? -/
def listHasSub (needle : List Char) : List Char → Bool
  | [] => listStarts needle []
  | c :: rest => listStarts needle (c :: rest) ∨ listHasSub needle rest

def strHasSub (hay needle : String) : Bool := listHasSub needle.data hay.data

/-! ## A matcher for the source's regular expressions

Every pattern in `src/rules.py` and the analyzers is a sequence of
character classes with counted repetition (`x`, `x?`, `x*`, `x+`,
`x{n}`, `x{n,}`, `x{n,m}`) and alternations of plain literals
(`(call|run|Popen)`). The matcher below implements Python `re`
semantics for exactly that fragment: leftmost match, each item greedy
with backtracking, earlier alternatives preferred. -/

/-- One regex item: a character class repeated between `lo` and `hi`
times (`hi = none` means unbounded), or an alternation of literal
strings (tried in order; `ci` selects case-insensitive comparison). -/
inductive RItem where
  | cls (p : Char → Bool) (lo : Nat) (hi : Option Nat)
  | alt (alts : List (List Char)) (ci : Bool)

/-- Case-selective character comparison. -/
def chEq (ci : Bool) (a b : Char) : Bool :=
  if ci then pyToLower a = pyToLower b else a = b

/-- Is `pat` a prefix of `s` under the given case mode? -/
def litFront (ci : Bool) : List Char → List Char → Bool
  | [], _ => true
  | _ :: _, [] => false
  | a :: as_, b :: bs => chEq ci a b ∧ litFront ci as_ bs

/-- Length of the maximal prefix of `s` whose characters satisfy `p`. -/
def runLen (p : Char → Bool) : List Char → Nat
  | [] => 0
  | c :: rest => if p c then runLen p rest + 1 else 0

/-- Match `items` against a prefix of `s`, returning the list of per-item
consumed lengths of the preferred (Python-greedy) solution. -/
def matchItems : List RItem → List Char → Option (List Nat)
  | [], _ => some []
  | .cls p lo hi :: rest, s =>
    let r := runLen p s
    let maxK := match hi with | none => r | some h => min r h
    if maxK < lo then none
    else
      -- try consumed counts maxK, maxK-1, ..., lo (greedy first)
      (List.range (maxK + 1 - lo)).findSome? fun d =>
        let k := maxK - d
        (matchItems rest (s.drop k)).map (k :: ·)
  | .alt alts ci :: rest, s =>
    alts.findSome? fun a =>
      if litFront ci a s then (matchItems rest (s.drop a.length)).map (a.length :: ·)
      else none

/-- Python `re.search` position: the least offset at which `items` match,
with the per-item lengths there. -/
def searchFrom (items : List RItem) : List Char → Option (Nat × List Nat)
  | [] => (matchItems items []).map ((0, ·))
  | c :: rest =>
    match matchItems items (c :: rest) with
    | some ks => some (0, ks)
    | none => (searchFrom items rest).map (fun p => (p.1 + 1, p.2))

/-- Python `re.search(...) is not None`. -/
def searchb (items : List RItem) (s : List Char) : Bool :=
  (searchFrom items s).isSome

/-- Python `re.finditer`: non-overlapping matches, scanning left to right,
each reported as (absolute start, per-item lengths). `fuel` only bounds the
recursion; `s.length + 1` always suffices because every step advances. -/
def finditerAux (items : List RItem) (fuel : Nat) (s : List Char) (base : Nat) :
    List (Nat × List Nat) :=
  match fuel with
  | 0 => []
  | fuel' + 1 =>
    match searchFrom items s with
    | none => []
    | some (i, ks) =>
      let adv := i + max ks.sum 1
      (base + i, ks) :: finditerAux items fuel' (s.drop adv) (base + adv)

def finditer (items : List RItem) (s : List Char) : List (Nat × List Nat) :=
  finditerAux items (s.length + 1) s 0

/-- The full text consumed by a `finditer` match (Python `match.group(0)`). -/
def matchText (s : List Char) (m : Nat × List Nat) : List Char :=
  (s.drop m.1).take m.2.sum

/-! ### Pattern-building helpers -/

/-- A case-sensitive literal. -/
def lit (t : String) : List RItem :=
  t.data.map fun c => .cls (fun x => x = c) 1 (some 1)

/-- A case-insensitive literal (pattern compiled with `re.IGNORECASE`). -/
def litci (t : String) : List RItem :=
  t.data.map fun c => .cls (fun x => pyToLower x = pyToLower c) 1 (some 1)

def one (p : Char → Bool) : RItem := .cls p 1 (some 1)
def opt (p : Char → Bool) : RItem := .cls p 0 (some 1)
def star (p : Char → Bool) : RItem := .cls p 0 none
def plus (p : Char → Bool) : RItem := .cls p 1 none
def repn (p : Char → Bool) (n : Nat) : RItem := .cls p n (some n)
def atLeast (p : Char → Bool) (n : Nat) : RItem := .cls p n none
def between (p : Char → Bool) (lo hi : Nat) : RItem := .cls p lo (some hi)
def altci (ws : List String) : RItem := .alt (ws.map String.data) true
def altcs (ws : List String) : RItem := .alt (ws.map String.data) false

/-- Class `["\']`. -/
def isQuote (c : Char) : Bool := c = '"' ∨ c = '\''

/-- Class `[^"\']`. -/
def notQuote (c : Char) : Bool := ¬ isQuote c

/-- Class `[^"\'\s]`. -/
def notQuoteWs (c : Char) : Bool := ¬ isQuote c ∧ ¬ isPyWs c

/-- Class `[^)]`. -/
def notRParen (c : Char) : Bool := c ≠ ')'

/-- Class `[\+\%\$\{\}]` of the "with variable" patterns. -/
def isVarMark (c : Char) : Bool :=
  c = '+' ∨ c = '%' ∨ c = '$' ∨ c = '\x7b' ∨ c = '\x7d'

/-- Class `[/\\]`. -/
def isSlash (c : Char) : Bool := c = '/' ∨ c = '\\'

/-- Class `[_-]`. -/
def isUndDash (c : Char) : Bool := c = '_' ∨ c = '-'

/-- Class `[^/\s]`. -/
def notSlashWs (c : Char) : Bool := c ≠ '/' ∧ ¬ isPyWs c

/-- The `.` class under `re.DOTALL`. -/
def anyChar (_ : Char) : Bool := true

/-- Class `` [`\n] `` used by the documentation whitelist patterns. -/
def isBtOrNl (c : Char) : Bool := c = '\x60' ∨ c = '\n'

/-! ## Pattern tables from `src/rules.py`

Each regex string of the source is transcribed into its item sequence.
All of these tables are matched with `re.IGNORECASE`, so literals are
transcribed with `litci` (under `re.IGNORECASE` the class `[0-9A-Z]`
also accepts lower-case letters, hence `isAlnum` where it appears). -/

def HIGH_RISK_PATTERNS : List (String × List (List RItem × String)) :=
  [ ("command_injection",
     [ (litci "eval" ++ [star isPyWs] ++ litci "(", "eval() execution"),
       (litci "exec" ++ [star isPyWs] ++ litci "(" ++ [star notRParen, one isVarMark],
        "exec() with variable"),
       (litci "os.system" ++ [star isPyWs] ++ litci "(" ++ [star notRParen, one isVarMark],
        "os.system with variable"),
       (litci "subprocess." ++ [altci ["call", "run", "Popen"], star isPyWs] ++ litci "(" ++
          [star notRParen] ++ litci "shell" ++ [star isPyWs] ++ litci "=" ++ [star isPyWs] ++
          litci "True",
        "subprocess with shell=True"),
       (litci "compile" ++ [star isPyWs] ++ litci "(" ++ [star notRParen, one isVarMark],
        "compile() with variable") ]),
    ("data_exfiltration",
     [ (litci "requests." ++ [altci ["post", "put"], star isPyWs] ++ litci "(" ++
          [star notRParen] ++ litci "http",
        "HTTP POST to external server"),
       (litci "urllib." ++ [altci ["request", "urlopen"]], "urllib network request"),
       (litci "http.client", "HTTP client usage"),
       (litci "socket." ++ [altci ["socket", "connect"]], "Socket network connection") ]),
    ("file_deletion",
     [ (litci "shutil.rmtree" ++ [star isPyWs] ++ litci "(" ++
          [star notRParen, one (fun c => c = '/' ∨ c = '*')],
        "Recursive directory deletion"),
       (litci "os.remove" ++ [star isPyWs] ++ litci "(" ++ [star notRParen] ++ litci "*",
        "Wildcard file deletion"),
       (litci "rm" ++ [plus isPyWs] ++ litci "-rf", "rm -rf command"),
       (litci "os.unlink" ++ [star isPyWs] ++ litci "(" ++ [star notRParen] ++ litci "*",
        "Wildcard file unlink") ]),
    ("credential_access",
     [ (litci "open" ++ [star isPyWs] ++ litci "(" ++ [star notRParen] ++ litci ".ssh" ++
          [one isSlash],
        "SSH key access"),
       (litci "open" ++ [star isPyWs] ++ litci "(" ++ [star notRParen] ++ litci "password",
        "Password file access"),
       (litci "open" ++ [star isPyWs] ++ litci "(" ++ [star notRParen] ++ litci "token",
        "Token file access"),
       (litci "open" ++ [star isPyWs] ++ litci "(" ++ [star notRParen] ++ litci "secret",
        "Secret file access"),
       (litci "open" ++ [star isPyWs] ++ litci "(" ++ [star notRParen] ++ litci "api" ++
          [opt isUndDash] ++ litci "key",
        "API key file access") ]),
    ("sensitive_file_access",
     [ (litci ".openclaw" ++ [one isSlash] ++ litci "config.json", "OpenClaw config access"),
       ([altci ["MEMORY.md", "SOUL.md", "USER.md", "AGENTS.md", "TOOLS.md"]],
        "Memory file access"),
       ([altci [".bashrc", ".zshrc", ".profile", ".bash_profile"]], "Shell config access"),
       (litci "~/" ++ [one anyChar] ++ litci "ssh/", "SSH directory access") ]) ]

def MEDIUM_RISK_PATTERNS : List (String × List (List RItem × String)) :=
  [ ("network_request",
     [ (litci "requests." ++ [altci ["get", "post", "put", "delete"]], "HTTP request"),
       (litci "urllib", "urllib usage"),
       (litci "httpx", "httpx usage"),
       (litci "aiohttp", "aiohttp usage") ]),
    ("file_access_outside_workspace",
     [ (litci "open" ++ [star isPyWs] ++ litci "(" ++ [star notRParen, one isQuote, star isPyWs] ++
          litci "/etc/",
        "System file access (/etc)"),
       (litci "open" ++ [star isPyWs] ++ litci "(" ++ [star notRParen, one isQuote, star isPyWs] ++
          litci "/sys/",
        "System file access (/sys)"),
       (litci "expanduser" ++ [star isPyWs] ++ litci "(" ++ [star isPyWs, one isQuote] ++
          litci "~" ++ [one isQuote],
        "Home directory access"),
       (litci "Path.home()", "Home directory access") ]),
    ("obfuscation",
     [ (litci "base64." ++ [altci ["b64decode", "decode"]], "Base64 decoding"),
       (litci "codecs.decode", "Codec decoding"),
       (litci ".decode" ++ [star isPyWs] ++ litci "(" ++ [star notRParen] ++ litci "rot13",
        "ROT13 decoding"),
       (litci "zlib." ++ [altci ["decompress", "compress"]], "zlib compression"),
       (litci "gzip.", "gzip compression") ]),
    ("dynamic_import",
     [ (litci "__import__" ++ [star isPyWs] ++ litci "(", "Dynamic import"),
       (litci "importlib." ++ [altci ["import_module", "__import__"]], "Dynamic import"),
       (litci "exec" ++ [star isPyWs] ++ litci "(", "exec() call"),
       (litci "compile" ++ [star isPyWs] ++ litci "(", "compile() call") ]),
    ("api_key_usage",
     [ (litci "api" ++ [opt isUndDash] ++ litci "key" ++ [star isPyWs] ++ litci "=",
        "API key assignment"),
       ([altci ["gemini", "openai", "anthropic", "claude"]], "AI service API"),
       (litci "api" ++ [opt isUndDash] ++ litci "secret", "API secret usage"),
       (litci "auth" ++ [opt isUndDash] ++ litci "token", "Auth token usage") ]),
    ("environment_access",
     [ (litci "os.environ", "Environment variable access"),
       (litci "os.getenv", "getenv call"),
       (litci "dotenv", "dotenv usage") ]) ]

def LOW_RISK_PATTERNS : List (String × List (List RItem × String)) :=
  [ ("shell_command",
     [ (litci "os.system" ++ [star isPyWs] ++ litci "(", "os.system call"),
       (litci "subprocess.", "Subprocess usage"),
       (litci "os.popen", "os.popen call") ]),
    ("file_operation",
     [ (litci "open" ++ [star isPyWs] ++ litci "(", "File open"),
       (litci "os.path.", "Path manipulation"),
       (litci "pathlib", "Pathlib usage"),
       (litci "shutil.", "shutil usage") ]),
    ("json_parsing",
     [ (litci "json.loads", "JSON parsing"),
       (litci "json.load", "JSON file loading") ]),
    ("yaml_parsing",
     [ (litci "yaml.", "YAML parsing"),
       (litci "pyyaml", "PyYAML usage") ]) ]

def SUSPICIOUS_PATTERNS : List (List RItem × String) :=
  [ (litci "http://" ++ [star notSlashWs, plus isDigitChar] ++ litci "." ++ [plus isDigitChar] ++
       litci "." ++ [plus isDigitChar] ++ litci "." ++ [plus isDigitChar],
     "Direct IP access (HTTP)"),
    (litci "http" ++ [opt (fun c => pyToLower c = 's')] ++ litci "://" ++ [star notSlashWs] ++
       litci "pastebin", "Pastebin URL"),
    (litci "http" ++ [opt (fun c => pyToLower c = 's')] ++ litci "://" ++ [star notSlashWs] ++
       litci "githubusercontent", "Raw GitHub content"),
    (litci "http" ++ [opt (fun c => pyToLower c = 's')] ++ litci "://" ++ [star notSlashWs] ++
       litci "ngrok", "Ngrok tunnel"),
    (litci "http" ++ [opt (fun c => pyToLower c = 's')] ++ litci "://" ++ [star notSlashWs] ++
       litci "serveo", "Serveo tunnel"),
    (litci "http" ++ [opt (fun c => pyToLower c = 's')] ++ litci "://" ++ [star notSlashWs] ++
       litci "localhost.run", "Localtunnel") ]

def SAFE_SERVICES : List String :=
  [ "api.nvidia.com", "integrate.api.nvidia.com", "api.openai.com",
    "generativelanguage.googleapis.com", "api.anthropic.com", "api.xiaohongshu.com",
    "xiaohongshu.com", "api.github.com", "raw.githubusercontent.com", "pypi.org",
    "files.pythonhosted.org" ]

def SCAN_EXTENSIONS : List String :=
  [ ".py", ".js", ".ts", ".sh", ".bash", ".zsh", ".fish", ".rb", ".pl", ".php", ".go",
    ".rs", ".java", ".c", ".cpp", ".md", ".txt", ".json", ".yaml", ".yml", ".toml" ]

/-- `IGNORE_PATTERNS`: searched case-sensitively on the path string; every
pattern in the source is a plain literal (dots escaped). -/
def IGNORE_PATTERNS : List (List RItem) :=
  [ lit ".git", lit ".svn", lit ".hg", lit "node_modules", lit "__pycache__",
    lit ".pytest_cache", lit ".venv", lit "venv", lit ".env", lit "dist", lit "build",
    lit ".egg-info", lit ".tox", lit ".coverage" ]

/-- `DEFAULT_WHITELIST_PATTERNS`, searched with `re.IGNORECASE | re.DOTALL`. -/
def DEFAULT_WHITELIST_PATTERNS : List (List RItem) :=
  [ litci "AGENTS.md" ++ [opt isQuote, star isPyWs, one isBtOrNl],
    litci "MEMORY.md" ++ [opt isQuote, star isPyWs, one isBtOrNl],
    litci "SOUL.md" ++ [opt isQuote, star isPyWs, one isBtOrNl],
    litci "USER.md" ++ [opt isQuote, star isPyWs, one isBtOrNl],
    litci "TOOLS.md" ++ [opt isQuote, star isPyWs, one isBtOrNl],
    litci "Configure in `AGENTS.md`",
    litci "registered slash commands in AGENTS.md",
    litci "# " ++ [star anyChar] ++ litci "testing" ++ [star anyChar] ++ lit "\n" ++
      [star anyChar] ++ litci "subprocess" ++ [star anyChar] ++ litci "shell" ++
      [star isPyWs] ++ litci "=" ++ [star isPyWs] ++ litci "True",
    litci "# " ++ [star anyChar] ++ litci "server" ++ [star anyChar] ++ lit "\n" ++
      [star anyChar] ++ litci "subprocess" ++ [star anyChar] ++ litci "shell" ++
      [star isPyWs] ++ litci "=" ++ [star isPyWs] ++ litci "True",
    litci "with_server.py",
    litci "test_" ++ [star anyChar] ++ litci ".py",
    litci "_test.py" ]

def DOCUMENTATION_FILES : List String :=
  ["SKILL.md", "README.md", "CHANGELOG.md", "LICENSE", "AGENTS.md"]

def TESTING_UTILITY_FILES : List String :=
  ["with_server.py", "test_server.py", "conftest.py", "test_helpers.py"]

/-! ## Regex analyzer (`src/analyzers/regex_analyzer.py`) -/

/-- Python slice `content[a : b]` with already-clamped start `a ≤ b`. -/
def slice (cs : List Char) (a b : Nat) : List Char := (cs.drop a).take (b - a)

/-- `RegexAnalyzer._is_in_string_literal`. Transcribed exactly as written:
the source subtracts `current_line.count(q)` from itself for both quote
kinds, so both counts are always zero. -/
def is_in_string_literal (content : List Char) (position : Nat) : Bool :=
  let lines_before := splitNl (content.take position)
  let current_line := lines_before.getLast?.getD []
  let single_quotes := current_line.count '\'' - current_line.count '\''
  let double_quotes := current_line.count '"' - current_line.count '"'
  single_quotes % 2 = 1 ∨ double_quotes % 2 = 1

/-- `RegexAnalyzer._is_pattern_definition`. -/
def is_pattern_definition (content : List Char) (position : Nat) : Bool :=
  let context := slice content (position - 100) (position + 100)
  [ "PATTERNS", "patterns", "regex", "PATTERN", "r'", "r\"", "re.compile",
    ".compile(" ].any fun ind => listHasSub ind.data context

/-- `RegexAnalyzer._is_example_code`. -/
def is_example_code (content : List Char) (position : Nat) : Bool :=
  let context := lowerAll (slice content (position - 200) (min content.length (position + 200)))
  [ "example", "danger:", "caution:", "warning:", "bad:", "wrong:", "unsafe:", "risk:",
    "pattern", "todo:", "note:", "security notice" ].any fun ind => listHasSub ind.data context

/-- `RegexAnalyzer._is_safe_service`. -/
def is_safe_service (url : List Char) : Bool :=
  SAFE_SERVICES.any fun service => listHasSub service.data url

/-- `RegexAnalyzer._is_documentation_reference`. -/
def is_documentation_reference (content : List Char) (position : Nat) : Bool :=
  let lines_before := splitNl (content.take position)
  let code_block_count :=
    lines_before.countP fun line => listStarts "```".data (pyStrip line)
  if code_block_count % 2 = 0 then true
  else
    let current_line := lines_before.getLast?.getD []
    if current_line.contains '\x60' ∨ current_line.contains '"' ∨ current_line.contains '\'' then
      ¬ listHasSub "open(".data current_line ∧ ¬ listHasSub "with open".data current_line
    else false

/-- `RegexAnalyzer._is_whitelisted_pattern`; `fileName` is `file_path.name`. -/
def is_whitelisted_pattern (content : List Char) (position : Nat) (fileName : String) : Bool :=
  let context := slice content (position - 150) (min content.length (position + 150))
  if DEFAULT_WHITELIST_PATTERNS.any fun wp => searchb wp context then true
  else if fileName ∈ DOCUMENTATION_FILES ∧ is_documentation_reference content position then true
  else fileName ∈ TESTING_UTILITY_FILES

/-- `RegexAnalyzer._get_snippet` (default context 50). -/
def get_snippet (content : List Char) (position : Nat) : String :=
  let raw := slice content (position - 50) (min content.length (position + 50))
  let snippet := pyStrip (raw.map fun c => if c = '\n' then ' ' else c)
  if snippet.length > 100 then ⟨snippet.take 100⟩ ++ "..." else ⟨snippet⟩

/-- `RegexAnalyzer._check_patterns`. -/
def check_patterns (content : List Char) (patterns : List (String × List (List RItem × String)))
    (severity : Severity) (fileName : String) : List SecurityIssue :=
  patterns.flatMap fun cp =>
    cp.2.flatMap fun pd =>
      (finditer pd.1 content).filterMap fun m =>
        let pos := m.1
        if is_in_string_literal content pos then none
        else if is_pattern_definition content pos then none
        else if is_example_code content pos then none
        else if is_whitelisted_pattern content pos fileName then none
        else some
          { level := severity
            category := cp.1
            description := pd.2
            file := fileName
            line := (content.take pos).count '\n' + 1
            snippet := get_snippet content pos
            confidence := 0.8 }

/-- `RegexAnalyzer.analyze`; `fileName` is `file_path.name`. -/
def regexAnalyze (mode : AnalysisMode) (fileName : String) (content : String) :
    List SecurityIssue :=
  let cs := content.data
  let issues := check_patterns cs HIGH_RISK_PATTERNS .high fileName
  let issues := issues ++
    (if mode = .standard ∨ mode = .deep then check_patterns cs MEDIUM_RISK_PATTERNS .medium fileName
     else [])
  let issues := issues ++
    (if mode = .deep then check_patterns cs LOW_RISK_PATTERNS .low fileName else [])
  issues ++
    (if mode = .standard ∨ mode = .deep then
      SUSPICIOUS_PATTERNS.flatMap fun pd =>
        (finditer pd.1 cs).filterMap fun m =>
          if is_safe_service (matchText cs m) then none
          else some
            { level := .medium
              category := "suspicious_url"
              description := pd.2
              file := fileName
              line := (cs.take m.1).count '\n' + 1
              snippet := get_snippet cs m.1
              confidence := 0.7 }
     else [])

/-! ## Entropy calculator (`src/utils/entropy.py`) -/

/-- `EntropyCalculator.calculate`: Shannon entropy in bits. Empty and
length-1 strings return 0; otherwise the sum over the distinct characters
(the keys of the frequency dict) of `-p * log2 p` with `p = count/length`
(the source's `if count > 0` guard is kept). Python `float` is modelled
as `ℝ`. -/
noncomputable def calculate (data : String) : ℝ :=
  let cs := data.data
  if cs = [] then 0
  else if cs.length = 1 then 0
  else cs.toFinset.sum fun c =>
    if 0 < cs.count c then
      -(((cs.count c : ℝ) / (cs.length : ℝ)) *
        Real.logb 2 ((cs.count c : ℝ) / (cs.length : ℝ)))
    else 0

/-! ## Secret analyzer (`src/analyzers/secret_analyzer.py`) -/

/-- `SecretDetectionConfig` defaults from `src/config/loader.py`. -/
structure SecretDetectionConfig where
  enabled : Bool
  min_entropy : ℝ
  min_length : Nat

def defaultSecretConfig : SecretDetectionConfig := ⟨true, 4.5, 20⟩

/-- Class `[A-Za-z0-9/+=]`. -/
def isB64Char (c : Char) : Bool := isAlnum c ∨ c = '/' ∨ c = '+' ∨ c = '='

/-- `SECRET_PATTERNS`: category ↦ (pattern, description, severity), matched
with `re.IGNORECASE` (so classes written `[0-9A-Z]` accept both cases). -/
def SECRET_PATTERNS : List (String × List (List RItem × String × Severity)) :=
  [ ("aws",
     [ (litci "AKIA" ++ [repn isAlnum 16], "AWS Access Key ID", .high),
       (litci "ASIA" ++ [repn isAlnum 16], "AWS Temporary Access Key", .high),
       (litci "aws" ++ [opt isUndDash] ++ litci "secret" ++ [opt isUndDash] ++ litci "access" ++
          [opt isUndDash] ++ litci "key" ++ [star isPyWs] ++ litci "=" ++
          [star isPyWs, opt isQuote, repn isB64Char 40, opt isQuote],
        "AWS Secret Access Key", .high) ]),
    ("github",
     [ (litci "gh" ++ [one (fun c => pyToLower c ∈ ['p', 'o', 'u', 's', 'r'])] ++ litci "_" ++
          [atLeast isWordChar 36],
        "GitHub Token", .high),
       (litci "github" ++ [opt isUndDash] ++ litci "token" ++ [star isPyWs] ++ litci "=" ++
          [star isPyWs, opt isQuote, plus isWordChar, opt isQuote],
        "GitHub Token", .high) ]),
    ("openai",
     [ (litci "sk-" ++ [repn isAlnum 48], "OpenAI API Key", .high),
       (litci "openai" ++ [opt isUndDash] ++ litci "api" ++ [opt isUndDash] ++ litci "key" ++
          [star isPyWs] ++ litci "=" ++ [star isPyWs, opt isQuote, plus isWordChar, opt isQuote],
        "OpenAI API Key", .high) ]),
    ("google",
     [ (litci "AIza" ++ [repn (fun c => isAlnum c ∨ c = '_' ∨ c = '-') 35],
        "Google API Key", .high) ]),
    ("slack",
     [ (litci "xox" ++ [one (fun c => pyToLower c ∈ ['b', 'a', 'p', 'r', 's'])] ++ litci "-" ++
          [between isAlnum 10 48],
        "Slack Token", .high) ]),
    ("generic",
     [ (litci "api" ++ [opt isUndDash] ++ litci "key" ++ [star isPyWs] ++ litci "=" ++
          [star isPyWs, opt isQuote, atLeast notQuoteWs 16, opt isQuote],
        "Generic API Key", .medium),
       (litci "api" ++ [opt isUndDash] ++ litci "secret" ++ [star isPyWs] ++ litci "=" ++
          [star isPyWs, opt isQuote, atLeast notQuoteWs 16, opt isQuote],
        "API Secret", .high),
       (litci "password" ++ [star isPyWs] ++ litci "=" ++
          [star isPyWs, one isQuote, atLeast notQuote 8, one isQuote],
        "Hardcoded Password", .high),
       (litci "secret" ++ [opt isUndDash] ++ litci "key" ++ [star isPyWs] ++ litci "=" ++
          [star isPyWs, opt isQuote, atLeast notQuoteWs 16, opt isQuote],
        "Secret Key", .high),
       (litci "token" ++ [star isPyWs] ++ litci "=" ++
          [star isPyWs, opt isQuote, atLeast notQuoteWs 16, opt isQuote],
        "Token", .medium),
       (litci "private" ++ [opt isUndDash] ++ litci "key" ++ [star isPyWs] ++ litci "=" ++
          [star isPyWs, opt isQuote, plus (fun c => c = '-')] ++ litci "BEGIN",
        "Private Key", .high),
       (litci "auth" ++ [opt isUndDash] ++ litci "token" ++ [star isPyWs] ++ litci "=" ++
          [star isPyWs, opt isQuote, atLeast notQuoteWs 16, opt isQuote],
        "Auth Token", .medium) ]) ]

/-- `FALSE_POSITIVE_PATTERNS` (`xxxx+`, `0000+` and `12345+` are a literal
followed by a repeated final character). -/
def FALSE_POSITIVE_PATTERNS : List (List RItem) :=
  [ litci "example",
    litci "placeholder",
    litci "your_" ++ [plus isWordChar] ++ litci "_here",
    litci "xxx" ++ [plus (fun c => pyToLower c = 'x')],
    lit "000" ++ [plus (fun c => c = '0')],
    lit "1234" ++ [plus (fun c => c = '5')],
    litci "test_" ++ [plus isWordChar],
    litci "dummy",
    litci "sample",
    litci "fake" ]

/-- `SecretAnalyzer._is_false_positive`: the text is lower-cased and each
false-positive pattern searched in it. -/
def is_false_positive (text : List Char) : Bool :=
  let tl := lowerAll text
  FALSE_POSITIVE_PATTERNS.any fun pat => searchb pat tl

/-- `SecretAnalyzer._is_likely_secret_assignment` (case-sensitive searches). -/
def is_likely_secret_assignment (line : List Char) : Bool :=
  [ [one (fun c => c = '=' ∨ c = ':'), star isPyWs, one isQuote],
    lit "export" ++ [plus isPyWs, plus isWordChar],
    [plus isWordChar] ++ lit ":" ++ [plus isPyWs, one isQuote] ].any fun pat => searchb pat line

/-- `SecretAnalyzer._extract_secret_value`: group 1 of
`[=:]\s*["\']?([^"\']+)["\']?` searched in the line, else the matched text. -/
def extract_secret_value (line : List Char) (matchedText : List Char) : List Char :=
  match searchFrom
      [one (fun c => c = '=' ∨ c = ':'), star isPyWs, opt isQuote, plus notQuote, opt isQuote]
      line with
  | some (i, ks) =>
    let before := (ks.take 3).sum
    slice line (i + before) (i + before + (ks.drop 3).headD 0)
  | none => matchedText

/-- `SecretAnalyzer._calculate_confidence`. The alternation
`(api[_-]?key|password|secret|token)\s*=` is searched as its four
alternatives (presence is equivalent). -/
def calculate_confidence (line : List Char) (secretValue : List Char) : ℝ :=
  let hasAssign :=
    [ litci "api" ++ [opt isUndDash] ++ litci "key" ++ [star isPyWs] ++ litci "=",
      litci "password" ++ [star isPyWs] ++ litci "=",
      litci "secret" ++ [star isPyWs] ++ litci "=",
      litci "token" ++ [star isPyWs] ++ litci "=" ].any fun pat => searchb pat line
  let confidence : ℝ := 0.7
  let confidence := if hasAssign then confidence + 0.15 else confidence
  let confidence := if 32 ≤ secretValue.length then confidence + 0.1 else confidence
  let confidence := if is_false_positive secretValue then confidence - 0.3 else confidence
  min 1.0 (max 0.1 confidence)

/-- Python `line.strip()[:100]` as a `String`. -/
def stripTrunc (line : List Char) : String := ⟨(pyStrip line).take 100⟩

/-- `SecretAnalyzer._check_patterns`. -/
def secretCheckPatterns (line : List Char) (lineNum : Nat) (fileName : String) :
    List SecurityIssue :=
  SECRET_PATTERNS.flatMap fun cat =>
    cat.2.flatMap fun pds =>
      (finditer pds.1 line).filterMap fun m =>
        let matchedText := matchText line m
        if is_false_positive matchedText then none
        else some
          { level := pds.2.2
            category := "hardcoded_secret"
            description := pds.2.1
            file := fileName
            line := lineNum
            snippet := stripTrunc line
            confidence := calculate_confidence line (extract_secret_value line matchedText) }

/-- Class `[A-Za-z0-9_/@#$%^&*+=\-]` of the entropy-candidate pattern. -/
def isTokenChar (c : Char) : Bool :=
  isAlnum c ∨ c = '_' ∨ c = '/' ∨ c = '@' ∨ c = '#' ∨ c = '$' ∨ c = '%' ∨ c = '^' ∨
    c = '&' ∨ c = '*' ∨ c = '+' ∨ c = '=' ∨ c = '-'

/-- The quoted-token candidates of `SecretAnalyzer._check_entropy`: group 1
of `["\']([A-Za-z0-9_/@#$%^&*+=\-]{20,})["\']` over all matches. -/
def entropyCandidates (line : List Char) : List (List Char) :=
  (finditer [one isQuote, atLeast isTokenChar 20, one isQuote] line).map fun m =>
    slice line (m.1 + 1) (m.1 + 1 + (m.2.drop 1).headD 0)

/-- The description of an entropy finding. The source embeds the entropy
value rendered to two decimals (`f"... (entropy: {entropy:.2f})"`); decimal
rendering of a real is outside the embedding, so the constant prefix
stands for the whole string. No claim depends on the numeric suffix. -/
def entropyDesc : String := "High-entropy string"

section
open Classical

/-- The loop body of `SecretAnalyzer._check_entropy`: each candidate is
skipped when shorter than `min_length`, otherwise its entropy is compared
with `min_entropy`; a finding is appended when the line looks like an
assignment and no finding for this line number is in the accumulator yet. -/
noncomputable def entropyLoop (cfg : SecretDetectionConfig) (line : List Char) (lineNum : Nat)
    (fileName : String) : List (List Char) → List SecurityIssue → List SecurityIssue
  | [], acc => acc
  | c :: rest, acc =>
    if c.length < cfg.min_length then entropyLoop cfg line lineNum fileName rest acc
    else if cfg.min_entropy ≤ calculate ⟨c⟩ then
      if is_likely_secret_assignment line then
        if acc.any fun i => i.line = lineNum then entropyLoop cfg line lineNum fileName rest acc
        else
          entropyLoop cfg line lineNum fileName rest
            (acc ++ [{ level := .high
                       category := "hardcoded_secret"
                       description := entropyDesc
                       file := fileName
                       line := lineNum
                       snippet := stripTrunc line
                       confidence := min 0.95 (calculate ⟨c⟩ / 8.0) }])
      else entropyLoop cfg line lineNum fileName rest acc
    else entropyLoop cfg line lineNum fileName rest acc

end

/-- `SecretAnalyzer._check_entropy`. -/
noncomputable def check_entropy (cfg : SecretDetectionConfig) (line : List Char) (lineNum : Nat)
    (fileName : String) : List SecurityIssue :=
  entropyLoop cfg line lineNum fileName (entropyCandidates line) []

/-- `SecretAnalyzer._analyze_line`. -/
noncomputable def secretAnalyzeLine (cfg : SecretDetectionConfig) (fileName : String)
    (lineNum : Nat) (line : List Char) : List SecurityIssue :=
  let stripped := pyStrip line
  if stripped = [] then []
  else if listStarts "#".data stripped then []
  else if is_false_positive stripped then []
  else
    secretCheckPatterns line lineNum fileName ++ check_entropy cfg line lineNum fileName

/-- `SecretAnalyzer.analyze`; `fileName` is `file_path.name`. -/
noncomputable def secretAnalyze (cfg : SecretDetectionConfig) (fileName : String)
    (content : String) : List SecurityIssue :=
  if ¬ cfg.enabled then []
  else
    (splitNl content.data).enum.flatMap fun il =>
      secretAnalyzeLine cfg fileName (il.1 + 1) il.2

/-! ## Python AST fragment

`ast.parse` is an external library; analyzers receive the parse tree.
The constructors below cover the node kinds the analyzers inspect
(`Assign`, `Expr`, `Import`, `ImportFrom`, `Call`, `Name`, `Attribute`,
`Constant`, `BinOp`, `JoinedStr`, `FormattedValue`, `keyword`, `alias`).
`BinOp`'s operator is carried as a string; the operator singleton node
(`Add()` etc.) is a childless leaf that no analyzer inspects. -/

inductive PyConst where
  | str (s : String)
  | int (n : Int)
  | bool (b : Bool)
  | noneVal
deriving DecidableEq, Repr

mutual

inductive PyExpr where
  | name (id : String) (lineno : Nat)
  | const (v : PyConst) (lineno : Nat)
  | attr (value : PyExpr) (attrName : String) (lineno : Nat)
  | call (func : PyExpr) (args : List PyExpr) (keywords : List PyKeyword) (lineno : Nat)
  | binOp (left : PyExpr) (op : String) (right : PyExpr) (lineno : Nat)
  | joinedStr (values : List PyExpr) (lineno : Nat)
  | formattedValue (value : PyExpr) (lineno : Nat)

inductive PyKeyword where
  | mk (arg : Option String) (value : PyExpr)

end

structure PyAlias where
  name : String
  asname : Option String

inductive PyStmt where
  | assign (targets : List PyExpr) (value : PyExpr) (lineno : Nat)
  | exprStmt (value : PyExpr) (lineno : Nat)
  | importStmt (names : List PyAlias) (lineno : Nat)
  | importFrom (module : Option String) (names : List PyAlias) (lineno : Nat)

structure PyModule where
  body : List PyStmt

/-- A uniform node, as traversed by `ast.walk` / `ast.NodeVisitor`. -/
inductive PyNode where
  | module (m : PyModule)
  | stmt (s : PyStmt)
  | expr (e : PyExpr)
  | keyword (k : PyKeyword)
  | aliasNode (a : PyAlias)

/-- `ast.iter_child_nodes`, in field order. -/
def children : PyNode → List PyNode
  | .module m => m.body.map .stmt
  | .stmt (.assign tgts v _) => tgts.map .expr ++ [.expr v]
  | .stmt (.exprStmt v _) => [.expr v]
  | .stmt (.importStmt names _) => names.map .aliasNode
  | .stmt (.importFrom _ names _) => names.map .aliasNode
  | .expr (.name _ _) => []
  | .expr (.const _ _) => []
  | .expr (.attr v _ _) => [.expr v]
  | .expr (.call f args kws _) => .expr f :: (args.map .expr ++ kws.map .keyword)
  | .expr (.binOp l _ r _) => [.expr l, .expr r]
  | .expr (.joinedStr vs _) => vs.map .expr
  | .expr (.formattedValue v _) => [.expr v]
  | .keyword (.mk _ v) => [.expr v]
  | .aliasNode _ => []

mutual

/-- Number of nodes in an expression tree. -/
def exprSize : PyExpr → Nat
  | .name _ _ => 1
  | .const _ _ => 1
  | .attr v _ _ => 1 + exprSize v
  | .call f args kws _ => 1 + exprSize f + exprListSize args + kwListSize kws
  | .binOp l _ r _ => 1 + exprSize l + exprSize r
  | .joinedStr vs _ => 1 + exprListSize vs
  | .formattedValue v _ => 1 + exprSize v

def exprListSize : List PyExpr → Nat
  | [] => 0
  | e :: es => exprSize e + exprListSize es

def kwSize : PyKeyword → Nat
  | .mk _ v => 1 + exprSize v

def kwListSize : List PyKeyword → Nat
  | [] => 0
  | k :: ks => kwSize k + kwListSize ks

end

def stmtSize : PyStmt → Nat
  | .assign tgts v _ => 1 + exprListSize tgts + exprSize v
  | .exprStmt v _ => 1 + exprSize v
  | .importStmt names _ => 1 + names.length
  | .importFrom _ names _ => 1 + names.length

def stmtListSize : List PyStmt → Nat
  | [] => 0
  | s :: ss => stmtSize s + stmtListSize ss

def nodeSize : PyNode → Nat
  | .module m => 1 + stmtListSize m.body
  | .stmt s => stmtSize s
  | .expr e => exprSize e
  | .keyword k => kwSize k
  | .aliasNode _ => 1

def nodesSize : List PyNode → Nat
  | [] => 0
  | n :: ns => nodeSize n + nodesSize ns

/-- `ast.walk`: breadth-first traversal with a queue. The fuel argument
only bounds the recursion; since every step pops exactly one node of the
forest, `nodesSize queue` steps always complete the traversal. -/
def walkAux : Nat → List PyNode → List PyNode
  | 0, _ => []
  | _ + 1, [] => []
  | fuel + 1, n :: rest => n :: walkAux fuel (rest ++ children n)

def walk (m : PyModule) : List PyNode :=
  walkAux (nodeSize (.module m)) [.module m]

/-- Python `Path(p).name`: the final path component. -/
def pyName (path : String) : String :=
  ⟨(path.data.reverse.takeWhile fun c => c ≠ '/').reverse⟩

/-- Python `Path(p).suffix`: the final extension of the name, empty when the
name has no dot, starts with its only dot, or ends with the dot. -/
def pySuffix (path : String) : String :=
  let n := (pyName path).data
  let ext := n.reverse.takeWhile fun c => c ≠ '.'
  if n.contains '.' ∧ ext ≠ [] ∧ ext.length + 1 < n.length then ⟨'.' :: ext.reverse⟩ else ""

/-! ## AST analyzer (`src/analyzers/ast_analyzer.py`) -/

/-- `PythonASTVisitor._get_func_name`. -/
def astGetFuncName : PyExpr → Option String
  | .name id _ => some id
  | .attr _ a _ => some a
  | _ => none

/-- `PythonASTVisitor._is_os_call`. -/
def is_os_call : PyExpr → Bool
  | .attr (.name v _) _ _ => v = "os"
  | _ => false

/-- `PythonASTVisitor._is_subprocess_call`. -/
def is_subprocess_call : PyExpr → Bool
  | .attr (.name v _) _ _ => v = "subprocess"
  | _ => false

/-- `PythonASTVisitor._has_shell_true`: a `shell` keyword bound to a
constant returns whether that constant is `True`; a `shell` keyword bound
to anything else falls through to the next keyword. -/
def has_shell_true : List PyKeyword → Bool
  | [] => false
  | .mk (some "shell") (.const c _) :: _ => c = .bool true
  | _ :: rest => has_shell_true rest

/-- `PythonASTVisitor._is_dangerous_call`. -/
def is_dangerous_call (funcName : String) : Option (String × String) :=
  [ ("eval", ("command_injection", "eval() execution")),
    ("exec", ("command_injection", "exec() execution")),
    ("__import__", ("dynamic_import", "Dynamic import")),
    ("compile", ("command_injection", "compile() execution")) ].lookup funcName

/-- `isinstance(arg, (ast.Constant, ast.Str))`: literal constants
(`ast.parse` produces `Constant` for all literals since Python 3.8). -/
def isConstArg : PyExpr → Bool
  | .const _ _ => true
  | _ => false

/-- The sensitive-path heuristics of `PythonASTVisitor._check_open_call`
(searched in the literal first argument with `re.IGNORECASE`). -/
def sensitive_patterns : List (List RItem × String) :=
  [ (litci ".ssh" ++ [one isSlash], "SSH key access"),
    (litci "password", "Password file access"),
    (litci "token", "Token file access"),
    (litci "secret", "Secret file access"),
    (litci ".openclaw" ++ [one isSlash] ++ litci "config", "OpenClaw config access"),
    ([altci ["MEMORY.md", "SOUL.md", "USER.md"]], "Memory file access") ]

/-- `PythonASTVisitor._get_snippet` (via `_get_line`). -/
def astSnippet (lines : List (List Char)) (lineNum : Nat) : String :=
  if 1 ≤ lineNum ∧ lineNum ≤ lines.length then
    let line := pyStrip (lines.getD (lineNum - 1) [])
    if line.length > 100 then ⟨line.take 100⟩ ++ "..." else ⟨line⟩
  else ""

/-- `PythonASTVisitor._check_open_call`: first matching sensitive pattern
wins. -/
def check_open_call (fileName : String) (lines : List (List Char)) (args : List PyExpr)
    (lineNum : Nat) : List SecurityIssue :=
  match args with
  | .const (.str filepath) _ :: _ =>
    match sensitive_patterns.find? fun pd => searchb pd.1 filepath.data with
    | some pd =>
      [{ level := .high
         category := "sensitive_file_access"
         description := pd.2
         file := fileName
         line := lineNum
         snippet := astSnippet lines lineNum
         confidence := 0.85 }]
    | none => []
  | _ => []

/-- The issues `PythonASTVisitor` appends at one node (`visit_Call`,
`visit_Import`, `visit_ImportFrom`), in the source's append order. -/
def issuesOfNode (fileName : String) (lines : List (List Char)) : PyNode → List SecurityIssue
  | .expr (.call f args kws ln) =>
    match astGetFuncName f with
    | none => []
    | some funcName =>
      (match is_dangerous_call funcName with
       | some cd =>
         if args.any fun a => ¬ isConstArg a then
           [{ level := .high
              category := cd.1
              description := cd.2 ++ " with variable"
              file := fileName
              line := ln
              snippet := astSnippet lines ln
              confidence := 0.9 }]
         else []
       | none => []) ++
      (if (funcName = "system" ∨ funcName = "popen") ∧ is_os_call f then
         [{ level := .high
            category := "command_injection"
            description := "os." ++ funcName ++ "() call"
            file := fileName
            line := ln
            snippet := astSnippet lines ln
            confidence := 0.85 }]
       else []) ++
      (if (funcName = "call" ∨ funcName = "run" ∨ funcName = "Popen") ∧ is_subprocess_call f ∧
          has_shell_true kws ∧ fileName ∉ TESTING_UTILITY_FILES then
         [{ level := .high
            category := "command_injection"
            description := "subprocess with shell=True"
            file := fileName
            line := ln
            snippet := astSnippet lines ln
            confidence := 0.95 }]
       else []) ++
      (if funcName = "open" then check_open_call fileName lines args ln else [])
  | .stmt (.importStmt names ln) =>
    names.flatMap fun a =>
      if a.name ∈ ["pickle", "marshal", "shelve"] then
        [{ level := .medium
           category := "deserialization"
           description := a.name ++ " import (unsafe deserialization)"
           file := fileName
           line := ln
           snippet := astSnippet lines ln
           confidence := 0.7 }]
      else []
  | .stmt (.importFrom module _ ln) =>
    if module = some "pickle" ∨ module = some "marshal" then
      [{ level := .medium
         category := "deserialization"
         description := (module.getD "") ++ " import (unsafe deserialization)"
         file := fileName
         line := ln
         snippet := astSnippet lines ln
         confidence := 0.7 }]
    else []
  | _ => []

/-- The `ast.NodeVisitor` traversal: each node's issues, then its children
depth-first (every `visit_X` ends with `generic_visit`). Fuel as in
`walkAux`. -/
def visitAll (fileName : String) (lines : List (List Char)) : Nat → List PyNode →
    List SecurityIssue
  | 0, _ => []
  | _ + 1, [] => []
  | fuel + 1, n :: rest =>
    issuesOfNode fileName lines n ++ visitAll fileName lines fuel (children n ++ rest)

/-- `ASTAnalyzer.analyze`: Python files only; a `SyntaxError` from
`ast.parse` (modelled as `parsed = none`) yields no findings. -/
def astAnalyze (path : String) (content : String) (parsed : Option PyModule) :
    List SecurityIssue :=
  if pySuffix path ≠ ".py" then []
  else
    match parsed with
    | none => []
    | some m =>
      visitAll (pyName path) (splitNl content.data) (nodeSize (.module m)) [.module m]

/-! ## Taint analyzer (`src/analyzers/taint_analyzer.py`) -/

/-- Keys of `TAINT_SOURCES`, in insertion order. -/
def TAINT_SOURCES : List String :=
  [ "input", "sys.argv", "os.environ.get", "os.getenv", "request.args.get",
    "request.form.get", "request.json", "open" ]

/-- `TAINT_SINKS`, in insertion order. -/
def TAINT_SINKS : List (String × String) :=
  [ ("eval", "code_execution"), ("exec", "code_execution"), ("os.system", "command_execution"),
    ("os.popen", "command_execution"), ("subprocess.call", "command_execution"),
    ("subprocess.run", "command_execution"), ("subprocess.Popen", "command_execution"),
    ("compile", "code_execution"), ("__import__", "dynamic_import") ]

/-- `TaintAnalyzer._get_func_name`. -/
def taintGetFuncName : PyExpr → Option String
  | .name id _ => some id
  | .attr (.name v _) a _ => some (v ++ "." ++ a)
  | .attr _ a _ => some a
  | _ => none

/-- `TaintAnalyzer._is_taint_source`: a call whose resolved name contains a
source pattern, the bare name `input`, or the attribute `sys.argv`. Note
this function does not recurse into binary operations or f-strings. -/
def is_taint_source : PyExpr → Bool
  | .call f _ _ _ =>
    match taintGetFuncName f with
    | some fn => TAINT_SOURCES.any fun sp => listHasSub sp.data fn.data
    | none => false
  | .name id _ => id ∈ ["input"]
  | .attr (.name v _) a _ => v = "sys" ∧ a = "argv"
  | _ => false

/-- The per-file variable-to-line taint map (`tainted_vars`). -/
abbrev TaintMap := List (String × Nat)

def keyMem (tv : TaintMap) (k : String) : Bool :=
  tv.any fun p => p.1 = k

/-- Python dict assignment `tv[k] = v`: overwrite or append. -/
def setKey : TaintMap → String → Nat → TaintMap
  | [], k, v => [(k, v)]
  | p :: rest, k, v => if p.1 = k then (k, v) :: rest else p :: setKey rest k v

mutual

/-- `TaintAnalyzer._is_tainted`. A bare name answers map membership
directly; binary operations recurse on both operands; an f-string is
tainted when some interpolated value is; any other expression is tainted
exactly when it is itself a taint source. -/
def is_tainted (tv : TaintMap) : PyExpr → Bool
  | .name id _ => keyMem tv id
  | .binOp l _ r _ => is_tainted tv l ∨ is_tainted tv r
  | .joinedStr vs _ => anyFormattedTainted tv vs
  | e => is_taint_source e

/-- The `JoinedStr` loop of `_is_tainted`: only `FormattedValue` members
are examined. -/
def anyFormattedTainted (tv : TaintMap) : List PyExpr → Bool
  | [] => false
  | .formattedValue v _ :: rest => is_tainted tv v ∨ anyFormattedTainted tv rest
  | _ :: rest => anyFormattedTainted tv rest

end

/-- `TaintAnalyzer._track_assignment`: when the right-hand side is a taint
source, every simple-name target is marked at the assignment's line. -/
def track_assignment (targets : List PyExpr) (value : PyExpr) (lineno : Nat) (tv : TaintMap) :
    TaintMap :=
  if is_taint_source value then
    targets.foldl
      (fun m t => match t with | .name id _ => setKey m id lineno | _ => m) tv
  else tv

/-- `TaintAnalyzer._check_sink`: at most one finding per call, on the first
tainted positional argument. -/
def check_sink (tv : TaintMap) (lines : List (List Char)) (fileName : String) (f : PyExpr)
    (args : List PyExpr) (ln : Nat) : List SecurityIssue :=
  match taintGetFuncName f with
  | none => []
  | some funcName =>
    match TAINT_SINKS.find? fun sc => listHasSub sc.1.data funcName.data with
    | none => []
    | some sc =>
      if args.any (is_tainted tv) then
        let lineContent := if ln ≤ lines.length then lines.getD (ln - 1) [] else []
        [{ level := .high
           category := "tainted_" ++ sc.2
           description := funcName ++ "() called with tainted user input"
           file := fileName
           line := ln
           snippet := stripTrunc lineContent
           confidence := 0.85 }]
      else []

/-- The walk loop of `TaintAnalyzer.analyze`: assignments update the taint
map, calls are checked as sinks; everything else is skipped. -/
def taintFold (fileName : String) (lines : List (List Char)) :
    List PyNode → TaintMap → List SecurityIssue → TaintMap × List SecurityIssue
  | [], tv, acc => (tv, acc)
  | .stmt (.assign tgts v ln) :: rest, tv, acc =>
    taintFold fileName lines rest (track_assignment tgts v ln tv) acc
  | .expr (.call f args _ ln) :: rest, tv, acc =>
    taintFold fileName lines rest tv (acc ++ check_sink tv lines fileName f args ln)
  | _ :: rest, tv, acc => taintFold fileName lines rest tv acc

/-- `TaintAnalyzer.analyze`: Python files, non-FAST modes, parseable
content only. -/
def taintAnalyze (mode : AnalysisMode) (path : String) (content : String)
    (parsed : Option PyModule) : List SecurityIssue :=
  if pySuffix path ≠ ".py" then []
  else if mode = .fast then []
  else
    match parsed with
    | none => []
    | some m => (taintFold (pyName path) (splitNl content.data) (walk m) [] []).2

/-! ## Dependency analyzer (`src/analyzers/dependency_analyzer.py`) -/

def KNOWN_VULNERABILITIES : List (String × List (String × Severity × String)) :=
  [ ("requests", [("PYSEC-2018-28", .high, "Requests does not properly check SSL certificates")]),
    ("urllib3", [("PYSEC-2021-108", .medium, "CRLF injection in urllib3")]),
    ("django", [("PYSEC-2022-1", .high, "Potential SQL injection in Django")]),
    ("flask", [("PYSEC-2019-18", .medium, "Flask before 1.0 has potential security issues")]),
    ("pillow", [("PYSEC-2021-90", .high, "Buffer overflow in Pillow")]) ]

/-- `alias.name.split(".")[0]` / `node.module.split(".")[0]`. -/
def basePackage (s : String) : String := ⟨s.data.takeWhile fun c => c ≠ '.'⟩

/-- `DependencyAnalyzer._extract_imports`. -/
def extract_imports (m : PyModule) : List (String × Nat) :=
  (walk m).flatMap fun n =>
    match n with
    | .stmt (.importStmt names ln) => names.map fun a => (basePackage a.name, ln)
    | .stmt (.importFrom (some md) _ ln) => [(basePackage md, ln)]
    | _ => []

/-- `DependencyAnalyzer._check_vulnerabilities`. -/
def check_vulnerabilities (fileName : String) (pkg : String × Nat) : List SecurityIssue :=
  match KNOWN_VULNERABILITIES.lookup ⟨lowerAll pkg.1.data⟩ with
  | none => []
  | some vulns =>
    vulns.map fun v =>
      { level := v.2.1
        category := "vulnerable_dependency"
        description := v.1 ++ ": " ++ v.2.2
        file := fileName
        line := pkg.2
        snippet := "import " ++ pkg.1
        confidence := 0.8 }

/-- `DependencyAnalyzer.analyze` (`enabled` from the dependency-check
config, default true). -/
def dependencyAnalyze (enabled : Bool) (path : String) (parsed : Option PyModule) :
    List SecurityIssue :=
  if ¬ enabled then []
  else if pySuffix path ≠ ".py" then []
  else
    match parsed with
    | none => []
    | some m => (extract_imports m).flatMap (check_vulnerabilities (pyName path))

/-! ## Scanner orchestrator (`src/scanner.py`) -/

/-- The closed set of analyzers. -/
inductive AnalyzerId where
  | regex | ast | secret | dependency | taint
deriving DecidableEq, Repr

/-- `SkillScanner._init_analyzers`, transcribed statement by statement.
In the embedding analyzer constructors are total, so the `try/except`
blocks (which would drop an analyzer whose constructor raised) always
take the success path. -/
def init_analyzers (mode : AnalysisMode) : List AnalyzerId :=
  let analyzers := [AnalyzerId.regex]
  let analyzers := if mode = .standard ∨ mode = .deep then analyzers ++ [.ast] else analyzers
  let analyzers := analyzers ++ [.secret]
  let analyzers := analyzers ++ [.dependency]
  if mode = .deep then analyzers ++ [.taint] else analyzers

/-- One discovered regular file: its path, its decoded text, and the
result of `ast.parse` on that text (`none` for a `SyntaxError`). -/
structure FileEntry where
  path : String
  text : String
  parsed : Option PyModule

/-- `SkillScanner._should_ignore`. -/
def should_ignore (path : String) : Bool :=
  IGNORE_PATTERNS.any fun pat => searchb pat path.data

def insertByPath (e : FileEntry) : List FileEntry → List FileEntry
  | [] => [e]
  | x :: xs => if e.path < x.path ∨ e.path = x.path then e :: x :: xs else x :: insertByPath e xs

/-- `sorted(set(files))`: deduplicate by path and sort lexicographically. -/
def sortFiles (files : List FileEntry) : List FileEntry :=
  (files.foldl (fun acc e => if acc.any fun x => x.path = e.path then acc else acc ++ [e]) []
    ).foldr insertByPath []

/-- `SkillScanner._get_files_to_scan` over the enumeration of regular
files below the root (the environment's `rglob`). -/
def get_files_to_scan (skillPath : String) (entries : List FileEntry) : List FileEntry :=
  let files := entries.filter fun e => ¬ should_ignore e.path ∧ pySuffix e.path ∈ SCAN_EXTENSIONS
  let skillMd := skillPath ++ "/SKILL.md"
  let files :=
    match entries.find? fun e => e.path = skillMd with
    | some e => if files.any fun x => x.path = skillMd then files else files ++ [e]
    | none => files
  sortFiles files

/-- Dispatch one active analyzer on one file. -/
noncomputable def runAnalyzer (mode : AnalysisMode) (a : AnalyzerId) (e : FileEntry) :
    List SecurityIssue :=
  match a with
  | .regex => regexAnalyze mode (pyName e.path) e.text
  | .ast => astAnalyze e.path e.text e.parsed
  | .secret => secretAnalyze defaultSecretConfig (pyName e.path) e.text
  | .dependency => dependencyAnalyze true e.path e.parsed
  | .taint => taintAnalyze mode e.path e.text e.parsed

/-- `SkillScanner.scan`. The file system is supplied as `none` when the
root does not exist, otherwise as the list of regular files below it; wall
clock and timestamp are environment inputs used only on the normal path
(the nonexistent-root result hard-codes `scan_time=0` and `timestamp=""`
as the source does). -/
noncomputable def scan (mode : AnalysisMode) (skillPath : String)
    (fs : Option (List FileEntry)) (elapsed : ℝ) (timestamp : String) : ScanResult :=
  match fs with
  | none =>
    { skill_path := skillPath
      files_scanned := 0
      findings := []
      scan_time := 0
      timestamp := "" }
  | some entries =>
    let files := get_files_to_scan skillPath entries
    let findings := files.flatMap fun e =>
      (init_analyzers mode).flatMap fun a => runAnalyzer mode a e
    { skill_path := skillPath
      files_scanned := files.length
      findings := findings
      scan_time := elapsed
      timestamp := timestamp }

/-! ## Helper lemmas -/

/-- Splitting a fold of `bumpSummary` off an arbitrary accumulator. -/
lemma foldl_bumpSummary (fs : List SecurityIssue) :
    ∀ acc : RiskSummary,
      fs.foldl bumpSummary acc =
        ⟨acc.high + (riskSummary fs).high, acc.medium + (riskSummary fs).medium,
         acc.low + (riskSummary fs).low, acc.info + (riskSummary fs).info⟩ := by
  induction fs with
  | nil => intro acc; simp [riskSummary]
  | cons i fs ih =>
    intro acc
    have h1 := ih (bumpSummary acc i)
    have h2 := ih (bumpSummary ⟨0, 0, 0, 0⟩ i)
    simp only [riskSummary, List.foldl_cons] at *
    rw [h1, h2]
    cases hi : i.level <;> simp [bumpSummary, hi] <;> omega

/-- Prepending a finding to the findings list bumps exactly its severity
count. -/
lemma riskSummary_cons (i : SecurityIssue) (fs : List SecurityIssue) :
    riskSummary (i :: fs) =
      ⟨(bumpSummary ⟨0, 0, 0, 0⟩ i).high + (riskSummary fs).high,
       (bumpSummary ⟨0, 0, 0, 0⟩ i).medium + (riskSummary fs).medium,
       (bumpSummary ⟨0, 0, 0, 0⟩ i).low + (riskSummary fs).low,
       (bumpSummary ⟨0, 0, 0, 0⟩ i).info + (riskSummary fs).info⟩ := by
  simp only [riskSummary, List.foldl_cons]
  exact foldl_bumpSummary fs _

/-! ## C1: analyzer set per mode -/

/-- Counterexample to claim C1: in FAST mode the active analyzer set is
not just the Regex analyzer — `_init_analyzers` appends the Secret and
Dependency analyzers unconditionally. -/
theorem C1_fast_not_regex_only : init_analyzers .fast ≠ [AnalyzerId.regex] := by
  decide

/-- Claim C1 as amended: FAST constructs Regex, Secret, Dependency;
STANDARD constructs Regex, AST, Secret, Dependency; DEEP constructs all
five including Taint. -/
theorem C1_analyzer_sets :
    init_analyzers .fast = [AnalyzerId.regex, .secret, .dependency] ∧
    init_analyzers .standard = [AnalyzerId.regex, .ast, .secret, .dependency] ∧
    init_analyzers .deep = [AnalyzerId.regex, .ast, .secret, .dependency, .taint] := by
  refine ⟨?_, ?_, ?_⟩ <;> decide

/-! ## C2: the in-string-literal suppression -/

/-- Claim C2 fails as a code bug: `_is_in_string_literal` subtracts each
quote count from itself, so it is constantly false and the quote-parity
filter never suppresses anything. At the failing input
`x = "eval(foo)` — where the `eval(` match at offset 5 sits inside an
open double quote, so the claimed parity rule would reject it — the
analyzer emits the HIGH `command_injection` finding anyway. -/
theorem C2_string_literal_filter_dead :
    (∀ (content : List Char) (position : Nat),
      is_in_string_literal content position = false) ∧
    (regexAnalyze .fast "a.py" "x = \"eval(foo)").map
        (fun i => (i.level, i.category, i.description, i.line)) =
      [(.high, "command_injection", "eval() execution", 1)] := by
  constructor
  · intro content position
    simp [is_in_string_literal]
  · decide

/-! ## C6: scanning a nonexistent root -/

/-- Claim C6: when the root path does not exist, `scan` returns an empty
result with zero files scanned, no findings, and zero elapsed time. -/
theorem C6_nonexistent_root_empty_result :
    ∀ (mode : AnalysisMode) (skillPath timestamp : String) (elapsed : ℝ),
      (scan mode skillPath none elapsed timestamp).files_scanned = 0 ∧
      (scan mode skillPath none elapsed timestamp).findings = [] ∧
      (scan mode skillPath none elapsed timestamp).scan_time = 0 := by
  intro mode skillPath timestamp elapsed
  exact ⟨rfl, rfl, rfl⟩

/-! ## C5: the assessment decision table -/

/-- Claim C5: the assessment string is chosen from the per-severity counts
by the first matching rule — HIGH>0 critical, else MEDIUM>5 warning, else
MEDIUM>0 caution, else safe — and adding a LOW or INFO finding never
changes the chosen tier. -/
theorem C5_assessment_decision_table :
    (∀ fs, 0 < (riskSummary fs).high →
      securityAssessment fs =
        "🔴 CRITICAL: High-risk issues detected. Manual review required.") ∧
    (∀ fs, (riskSummary fs).high = 0 → 5 < (riskSummary fs).medium →
      securityAssessment fs =
        "🟡 WARNING: Multiple medium-risk issues found. Review recommended.") ∧
    (∀ fs, (riskSummary fs).high = 0 → 0 < (riskSummary fs).medium →
      (riskSummary fs).medium ≤ 5 →
      securityAssessment fs =
        "🟢 CAUTION: Some medium-risk issues found. Review suggested.") ∧
    (∀ fs, (riskSummary fs).high = 0 → (riskSummary fs).medium = 0 →
      securityAssessment fs = "✅ SAFE: No significant security issues found.") ∧
    (∀ fs (i : SecurityIssue), i.level = .low ∨ i.level = .info →
      securityAssessment (i :: fs) = securityAssessment fs) := by
  refine ⟨?_, ?_, ?_, ?_, ?_⟩
  · intro fs h
    simp only [securityAssessment]
    rw [if_pos h]
  · intro fs h h5
    simp only [securityAssessment]
    rw [if_neg (by omega), if_pos h5]
  · intro fs h hm h5
    simp only [securityAssessment]
    rw [if_neg (by omega), if_neg (by omega), if_pos hm]
  · intro fs h hm
    simp only [securityAssessment]
    rw [if_neg (by omega), if_neg (by omega), if_neg (by omega)]
  · intro fs i hi
    have hcons := riskSummary_cons i fs
    have hh : (riskSummary (i :: fs)).high = (riskSummary fs).high := by
      rcases hi with h | h <;> rw [hcons] <;> simp [bumpSummary, h]
    have hm : (riskSummary (i :: fs)).medium = (riskSummary fs).medium := by
      rcases hi with h | h <;> rw [hcons] <;> simp [bumpSummary, h]
    simp only [securityAssessment, hh, hm]

/-- Witness for C5 at concrete inputs: a LOW finding prepended to an empty
findings list leaves the assessment unchanged. -/
theorem C5_assessment_decision_table_witness :
    securityAssessment [{ level := .low, category := "c", description := "d", file := "f",
                          line := 1, snippet := "s", confidence := 1 }] =
      securityAssessment [] :=
  C5_assessment_decision_table.2.2.2.2 []
    { level := .low, category := "c", description := "d", file := "f",
      line := 1, snippet := "s", confidence := 1 } (Or.inl rfl)

/-! ## Entropy lemmas -/

lemma calculate_empty : calculate "" = 0 := by
  simp [calculate]

lemma calculate_len1 (s : String) (h : s.data.length = 1) : calculate s = 0 := by
  unfold calculate
  by_cases hs : s.data = []
  · simp [hs]
  · rw [if_neg hs, if_pos h]

/-- On a string with pairwise-distinct characters of length `n ≥ 2`, every
frequency is `1/n` and the entropy is exactly `log2 n`. -/
lemma calculate_nodup (s : String) (hn : s.data.Nodup) (h2 : 2 ≤ s.data.length) :
    calculate s = Real.logb 2 (s.data.length : ℝ) := by
  have hne : s.data ≠ [] := by
    intro h
    rw [h] at h2
    simp at h2
  have hl1 : ¬ s.data.length = 1 := by omega
  have hn0 : (s.data.length : ℝ) ≠ 0 := by
    have h0 : 0 < s.data.length := by omega
    exact_mod_cast h0.ne'
  unfold calculate
  rw [if_neg hne, if_neg hl1]
  have hterm : ∀ c ∈ s.data.toFinset,
      (if 0 < s.data.count c then
        -(((s.data.count c : ℝ) / (s.data.length : ℝ)) *
          Real.logb 2 ((s.data.count c : ℝ) / (s.data.length : ℝ)))
       else 0) = Real.logb 2 (s.data.length : ℝ) / (s.data.length : ℝ) := by
    intro c hc
    rw [List.count_eq_one_of_mem hn (List.mem_toFinset.mp hc)]
    rw [if_pos (by norm_num)]
    push_cast
    rw [one_div, Real.logb_inv]
    ring
  rw [Finset.sum_congr rfl hterm, Finset.sum_const, List.toFinset_card_of_nodup hn,
    nsmul_eq_mul, mul_comm]
  exact div_mul_cancel₀ _ hn0

/-- Entropy depends only on the multiset of characters. -/
lemma calculate_perm (s t : String) (h : s.data.Perm t.data) : calculate s = calculate t := by
  unfold calculate
  have hlen : s.data.length = t.data.length := h.length_eq
  have hfin : s.data.toFinset = t.data.toFinset := List.toFinset_eq_of_perm _ _ h
  by_cases hs : s.data = []
  · have ht : t.data = [] := by
      rw [hs] at h
      exact h.symm.eq_nil
    rw [if_pos hs, if_pos ht]
  · have ht : ¬ t.data = [] := by
      intro h0
      apply hs
      rw [h0] at h
      exact h.eq_nil
    rw [if_neg hs, if_neg ht]
    by_cases h1 : t.data.length = 1
    · rw [if_pos (by rw [hlen]; exact h1), if_pos h1]
    · rw [if_neg (by rw [hlen]; exact h1), if_neg h1, hfin]
      refine Finset.sum_congr rfl fun c _ => ?_
      rw [h.count_eq c, hlen]

lemma calculate_aaaa : calculate "aaaa" = 0 := by
  have h1 : "aaaa".data.toFinset = {'a'} := by decide
  have h2 : "aaaa".data.count 'a' = 4 := by decide
  have h3 : "aaaa".data.length = 4 := by decide
  unfold calculate
  rw [if_neg (by decide), if_neg (by decide), h1, Finset.sum_singleton, h2, h3]
  rw [if_pos (by norm_num)]
  push_cast
  norm_num

/-! ## C8: entropy scorer properties -/

/-- Claim C8: `calculate` returns 0 for the empty string and every length-1
string, is invariant under permutations of the characters, and on "aaaa"
is strictly below the value of any equal-length all-distinct string. -/
theorem C8_entropy_calculate :
    calculate "" = 0 ∧
    (∀ s : String, s.data.length = 1 → calculate s = 0) ∧
    (∀ s t : String, s.data.Perm t.data → calculate s = calculate t) ∧
    (∀ s : String, s.data.length = 4 → s.data.Nodup → calculate "aaaa" < calculate s) := by
  refine ⟨calculate_empty, calculate_len1, calculate_perm, ?_⟩
  intro s h4 hn
  rw [calculate_aaaa, calculate_nodup s hn (by omega), h4]
  exact Real.logb_pos one_lt_two (by norm_num)

/-- Witness for C8 at concrete inputs: length-1, a transposition, and the
four-distinct-character string "abcd". -/
theorem C8_entropy_calculate_witness :
    "a".data.length = 1 ∧ calculate "a" = 0 ∧
    "ab".data.Perm "ba".data ∧ calculate "ab" = calculate "ba" ∧
    "abcd".data.length = 4 ∧ "abcd".data.Nodup ∧ calculate "aaaa" < calculate "abcd" :=
  ⟨by decide, C8_entropy_calculate.2.1 "a" (by decide), by decide,
   C8_entropy_calculate.2.2.1 "ab" "ba" (by decide), by decide, by decide,
   C8_entropy_calculate.2.2.2 "abcd" (by decide) (by decide)⟩

/-! ## Taint-map lemmas -/

/-- Dict assignment preserves the presence of every existing key. -/
lemma keyMem_setKey (tv : TaintMap) (k k' : String) (v : Nat) (h : keyMem tv k = true) :
    keyMem (setKey tv k' v) k = true := by
  induction tv with
  | nil => simp [keyMem] at h
  | cons p rest ih =>
    simp only [keyMem, List.any_cons, Bool.or_eq_true, decide_eq_true_eq] at h
    by_cases hk : p.1 = k'
    · simp only [setKey, if_pos hk, keyMem, List.any_cons, Bool.or_eq_true, decide_eq_true_eq]
      rcases h with h | h
      · exact Or.inl (by rw [← hk, h])
      · exact Or.inr h
    · simp only [setKey, if_neg hk, keyMem, List.any_cons, Bool.or_eq_true, decide_eq_true_eq]
      rcases h with h | h
      · exact Or.inl h
      · exact Or.inr (ih h)

/-- Dict assignment makes its own key present. -/
lemma keyMem_setKey_self (tv : TaintMap) (k : String) (v : Nat) :
    keyMem (setKey tv k v) k = true := by
  induction tv with
  | nil => simp [setKey, keyMem]
  | cons p rest ih =>
    by_cases hk : p.1 = k
    · simp [setKey, if_pos hk, keyMem]
    · simp only [setKey, if_neg hk, keyMem, List.any_cons, Bool.or_eq_true, decide_eq_true_eq]
      exact Or.inr ih

/-- The target-marking fold of `_track_assignment` preserves existing keys. -/
lemma keyMem_markTargets (ln : Nat) :
    ∀ (tgts : List PyExpr) (tv : TaintMap) (k : String), keyMem tv k = true →
      keyMem (tgts.foldl
        (fun m t => match t with | PyExpr.name id _ => setKey m id ln | _ => m) tv) k = true := by
  intro tgts
  induction tgts with
  | nil => intro tv k h; exact h
  | cons t rest ih =>
    intro tv k h
    rw [List.foldl_cons]
    cases t with
    | name id ln2 => exact ih _ _ (keyMem_setKey tv k id ln h)
    | const v ln2 => exact ih _ _ h
    | attr v a ln2 => exact ih _ _ h
    | call f args kws ln2 => exact ih _ _ h
    | binOp l op r ln2 => exact ih _ _ h
    | joinedStr vs ln2 => exact ih _ _ h
    | formattedValue v ln2 => exact ih _ _ h

/-- The target-marking fold marks every simple-name target. -/
lemma keyMem_markTargets_mem (ln : Nat) :
    ∀ (tgts : List PyExpr) (tv : TaintMap) (id : String) (ln3 : Nat),
      PyExpr.name id ln3 ∈ tgts →
      keyMem (tgts.foldl
        (fun m t => match t with | PyExpr.name i _ => setKey m i ln | _ => m) tv) id = true := by
  intro tgts
  induction tgts with
  | nil => intro tv id ln3 h; cases h
  | cons t rest ih =>
    intro tv id ln3 h
    rw [List.foldl_cons]
    rcases List.mem_cons.mp h with h | h
    · rw [← h]
      exact keyMem_markTargets ln rest _ id (keyMem_setKey_self tv id ln)
    · exact ih _ _ ln3 h

/-- `_track_assignment` preserves existing taint marks: the map only gains
or overwrites entries, it never deletes one. -/
lemma keyMem_track_assignment (tgts : List PyExpr) (v : PyExpr) (ln : Nat) (tv : TaintMap)
    (k : String) (h : keyMem tv k = true) :
    keyMem (track_assignment tgts v ln tv) k = true := by
  unfold track_assignment
  by_cases hsrc : is_taint_source v = true
  · rw [if_pos hsrc]
    exact keyMem_markTargets ln tgts tv k h
  · rw [if_neg hsrc]
    exact h

/-- The walk loop of the taint analyzer never drops a taint mark. -/
lemma taintFold_mono (fileName : String) (lines : List (List Char)) :
    ∀ (nodes : List PyNode) (tv : TaintMap) (acc : List SecurityIssue) (k : String),
      keyMem tv k = true → keyMem (taintFold fileName lines nodes tv acc).1 k = true := by
  intro nodes
  induction nodes with
  | nil => intro tv acc k h; exact h
  | cons n rest ih =>
    intro tv acc k h
    cases n with
    | module m => exact ih _ _ _ h
    | stmt s =>
      cases s with
      | assign tgts v ln => exact ih _ _ _ (keyMem_track_assignment tgts v ln tv k h)
      | exprStmt v ln => exact ih _ _ _ h
      | importStmt names ln => exact ih _ _ _ h
      | importFrom md names ln => exact ih _ _ _ h
    | expr e =>
      cases e with
      | call f args kws ln => exact ih _ _ _ h
      | name id ln => exact ih _ _ _ h
      | const v ln => exact ih _ _ _ h
      | attr v a ln => exact ih _ _ _ h
      | binOp l op r ln => exact ih _ _ _ h
      | joinedStr vs ln => exact ih _ _ _ h
      | formattedValue v ln => exact ih _ _ _ h
    | keyword kw => exact ih _ _ _ h
    | aliasNode a => exact ih _ _ _ h

/-! ## Concrete parse trees used by the taint claims -/

/-- The parse of `x = "rm " + input()` / `os.system(x)`. -/
def binopTaintProg : PyModule :=
  ⟨[ .assign [.name "x" 1]
       (.binOp (.const (.str "rm ") 1) "Add" (.call (.name "input" 1) [] [] 1) 1) 1,
     .exprStmt (.call (.attr (.name "os" 2) "system" 2) [.name "x" 2] [] 2) 2 ]⟩

/-- The parse of `x = input()` / `os.system(x)`. -/
def directTaintProg : PyModule :=
  ⟨[ .assign [.name "x" 1] (.call (.name "input" 1) [] [] 1) 1,
     .exprStmt (.call (.attr (.name "os" 2) "system" 2) [.name "x" 2] [] 2) 2 ]⟩

/-- The parse of `x = input()` / `x = "safe"` / `os.system(x)`. -/
def reassignTaintProg : PyModule :=
  ⟨[ .assign [.name "x" 1] (.call (.name "input" 1) [] [] 1) 1,
     .assign [.name "x" 2] (.const (.str "safe") 2) 2,
     .exprStmt (.call (.attr (.name "os" 3) "system" 3) [.name "x" 3] [] 3) 3 ]⟩

/-! ## C9: taint marks are never removed -/

/-- Claim C9: within one file analysis the variable-to-line taint map only
gains or overwrites entries and never deletes one, so after
`x = input()` and `x = "safe"` the name stays tainted and the sink call
`os.system(x)` is still flagged HIGH. -/
theorem C9_taint_marks_persist :
    (∀ (fileName : String) (lines : List (List Char)) (nodes : List PyNode) (tv : TaintMap)
       (acc : List SecurityIssue) (k : String),
       keyMem tv k = true → keyMem (taintFold fileName lines nodes tv acc).1 k = true) ∧
    (taintAnalyze .deep "a.py" "x = input()\nx = \"safe\"\nos.system(x)"
        (some reassignTaintProg)).map (fun i => (i.level, i.category, i.line)) =
      [(.high, "tainted_command_execution", 3)] :=
  ⟨taintFold_mono, by decide⟩

/-- Witness for C9 at a concrete input: a mark present before an empty walk
is present after it. -/
theorem C9_taint_marks_persist_witness :
    keyMem [("x", 1)] "x" = true ∧
    keyMem (taintFold "a.py" [] [] [("x", 1)] []).1 "x" = true :=
  ⟨by decide, C9_taint_marks_persist.1 "a.py" [] [] [("x", 1)] [] "x" (by decide)⟩

/-! ## C4: taint through binary operations at assignments -/

/-- Counterexample to claim C4: for `x = "rm " + input()` followed by
`os.system(x)` the DEEP-mode taint analyzer reports nothing at all —
`_is_taint_source` does not recurse through the binary operation on the
assignment's right-hand side, so `x` is never marked. -/
theorem C4_binop_rhs_not_tracked :
    taintAnalyze .deep "a.py" "x = \"rm \" + input()\nos.system(x)"
      (some binopTaintProg) = [] := rfl

/-- Claim C4 as amended: an assignment marks its simple-name targets
tainted exactly when the right-hand side is itself directly a taint
source; a right-hand side that is a binary operation or an f-string never
updates the map (that recursion exists only for sink arguments), while a
direct source assignment such as `x = input()` marks `x`, and the
subsequent `os.system(x)` yields the HIGH finding. -/
theorem C4_assignment_taint_rules :
    (∀ (tgts : List PyExpr) (l r : PyExpr) (op : String) (ln ln2 : Nat) (tv : TaintMap),
       track_assignment tgts (.binOp l op r ln2) ln tv = tv) ∧
    (∀ (tgts vs : List PyExpr) (ln ln2 : Nat) (tv : TaintMap),
       track_assignment tgts (.joinedStr vs ln2) ln tv = tv) ∧
    (∀ (tgts : List PyExpr) (v : PyExpr) (ln : Nat) (tv : TaintMap) (id : String) (ln3 : Nat),
       is_taint_source v = true → PyExpr.name id ln3 ∈ tgts →
       keyMem (track_assignment tgts v ln tv) id = true) ∧
    (taintAnalyze .deep "a.py" "x = input()\nos.system(x)" (some directTaintProg)).map
        (fun i => (i.level, i.category, i.line)) =
      [(.high, "tainted_command_execution", 2)] := by
  refine ⟨fun _ _ _ _ _ _ _ => rfl, fun _ _ _ _ _ => rfl, ?_, by decide⟩
  intro tgts v ln tv id ln3 hsrc hmem
  unfold track_assignment
  rw [if_pos hsrc]
  exact keyMem_markTargets_mem ln tgts tv id ln3 hmem

/-- Witness for C4 at a concrete input: `x = input()` marks `x`. -/
theorem C4_assignment_taint_rules_witness :
    is_taint_source (.call (.name "input" 1) [] [] 1) = true ∧
    PyExpr.name "x" 1 ∈ [PyExpr.name "x" 1] ∧
    keyMem (track_assignment [.name "x" 1] (.call (.name "input" 1) [] [] 1) 1 []) "x" = true :=
  ⟨by decide, List.Mem.head _,
   C4_assignment_taint_rules.2.2.1 [.name "x" 1] (.call (.name "input" 1) [] [] 1) 1 [] "x" 1
     (by decide) (List.Mem.head _)⟩

/-! ## C7: dynamic-execution calls in the AST analyzer -/

/-- The dangerous-call table contains exactly the four dynamic-execution
primitives. -/
lemma dangerous_call_names (fn : String) (cd : String × String)
    (h : is_dangerous_call fn = some cd) :
    fn = "eval" ∨ fn = "exec" ∨ fn = "__import__" ∨ fn = "compile" := by
  unfold is_dangerous_call at h
  by_cases h1 : fn = "eval"
  · exact Or.inl h1
  by_cases h2 : fn = "exec"
  · exact Or.inr (Or.inl h2)
  by_cases h3 : fn = "__import__"
  · exact Or.inr (Or.inr (Or.inl h3))
  by_cases h4 : fn = "compile"
  · exact Or.inr (Or.inr (Or.inr h4))
  simp only [List.lookup, beq_eq_false_iff_ne.mpr h1, beq_eq_false_iff_ne.mpr h2,
    beq_eq_false_iff_ne.mpr h3, beq_eq_false_iff_ne.mpr h4] at h
  exact Option.noConfusion h

/-- The parse of `eval("1+1")`. -/
def evalLiteralProg : PyModule :=
  ⟨[.exprStmt (.call (.name "eval" 1) [.const (.str "1+1") 1] [] 1) 1]⟩

/-- The parse of `eval(x)`. -/
def evalVarProg : PyModule :=
  ⟨[.exprStmt (.call (.name "eval" 1) [.name "x" 1] [] 1) 1]⟩

/-- Claim C7: a call to eval/exec/compile/__import__ produces the HIGH,
confidence-0.9, "with variable"-tagged finding exactly when some argument
is not a literal constant; `eval("1+1")` yields nothing, `eval(x)` yields
exactly one HIGH `command_injection` finding. -/
theorem C7_dangerous_call_literal_gate :
    (∀ (fileName : String) (lines : List (List Char)) (f : PyExpr) (args : List PyExpr)
       (kws : List PyKeyword) (ln : Nat) (funcName : String) (cd : String × String),
       astGetFuncName f = some funcName → is_dangerous_call funcName = some cd →
       issuesOfNode fileName lines (.expr (.call f args kws ln)) =
         (if args.any fun a => ¬ isConstArg a then
           [{ level := .high, category := cd.1, description := cd.2 ++ " with variable",
              file := fileName, line := ln, snippet := astSnippet lines ln,
              confidence := 0.9 }]
         else [])) ∧
    astAnalyze "a.py" "eval(\"1+1\")" (some evalLiteralProg) = [] ∧
    astAnalyze "a.py" "eval(x)" (some evalVarProg) =
      [{ level := .high, category := "command_injection",
         description := "eval() execution with variable", file := "a.py", line := 1,
         snippet := "eval(x)", confidence := 0.9 }] := by
  refine ⟨?_, rfl, rfl⟩
  intro fileName lines f args kws ln funcName cd h1 h2
  rcases dangerous_call_names funcName cd h2 with h | h | h | h <;> subst h <;>
    simp only [is_dangerous_call, List.lookup] at h2 <;>
    obtain rfl := (Option.some.inj h2).symm <;>
    simp only [issuesOfNode, h1] <;>
    simp [is_dangerous_call, List.lookup]

/-- Witness for C7 at a concrete input: the dangerous-call rule applied to
the call node of `eval(x)`. -/
theorem C7_dangerous_call_literal_gate_witness :
    astGetFuncName (.name "eval" 1) = some "eval" ∧
    is_dangerous_call "eval" = some ("command_injection", "eval() execution") ∧
    issuesOfNode "a.py" ["eval(x)".data]
        (.expr (.call (.name "eval" 1) [.name "x" 1] [] 1)) =
      (if [PyExpr.name "x" 1].any fun a => ¬ isConstArg a then
        [{ level := .high, category := "command_injection",
           description := "eval() execution" ++ " with variable", file := "a.py", line := 1,
           snippet := astSnippet ["eval(x)".data] 1, confidence := 0.9 }]
      else []) :=
  ⟨rfl, rfl,
   C7_dangerous_call_literal_gate.1 "a.py" ["eval(x)".data] (.name "eval" 1)
     [.name "x" 1] [] 1 "eval" ("command_injection", "eval() execution") rfl rfl⟩

/-! ## C10: false-positive tokens suppress the whole line -/

/-- Claim C10: a line whose stripped text matches a false-positive pattern
is skipped before either detection pass, so the Secret analyzer emits no
finding of any kind for it. -/
theorem C10_false_positive_line_skipped :
    ∀ (cfg : SecretDetectionConfig) (fileName : String) (lineNum : Nat) (line : List Char),
      is_false_positive (pyStrip line) = true →
      secretAnalyzeLine cfg fileName lineNum line = [] := by
  intro cfg fileName lineNum line h
  simp only [secretAnalyzeLine]
  split_ifs <;> rfl

/-- A line carrying a genuine vendor-format secret (an AWS access key id)
alongside the token "example". -/
def fpSecretLine : List Char := "key = \"AKIA0123456789ABCDEF\" # example".data

/-- Witness for C10 at a concrete input: the line with an AWS key shape is
fully suppressed because it contains "example". -/
theorem C10_false_positive_line_skipped_witness :
    is_false_positive (pyStrip fpSecretLine) = true ∧
    secretAnalyzeLine defaultSecretConfig "creds.py" 1 fpSecretLine = [] :=
  ⟨by decide,
   C10_false_positive_line_skipped defaultSecretConfig "creds.py" 1 fpSecretLine (by decide)⟩

/-! ## C3: entropy findings are not deduplicated against pattern findings -/

/-- The line of the C3 failing input: a hardcoded-password pattern match
whose quoted value is also a 32-character all-distinct (hence
high-entropy) token. -/
def pwSecretLine : List Char := "password = \"ABCDEFGHIJKLMNOPQRSTUVWXYZ013579\"".data

/-- The quoted token of `pwSecretLine`. -/
def pwCandidate : List Char := "ABCDEFGHIJKLMNOPQRSTUVWXYZ013579".data

/-- The candidate's 32 characters are pairwise distinct, so its entropy is
`log2 32 = 5`. -/
lemma calculate_pwCandidate : calculate ⟨pwCandidate⟩ = 5 := by
  have hn : (String.mk pwCandidate).data.Nodup := by decide
  have hl : (String.mk pwCandidate).data.length = 32 := by decide
  rw [calculate_nodup _ hn (by rw [hl]; omega), hl]
  have h32 : ((32 : ℕ) : ℝ) = 2 ^ (5 : ℕ) := by norm_num
  rw [h32, Real.logb_pow]
  simp [Real.logb_self_eq_one]

/-- Claim C3 fails as a code bug: on a line where the pattern pass already
reports a hardcoded password, the entropy pass still appends its own
finding for the same line — the "avoid duplicates from pattern matching"
check in `_check_entropy` consults only its local accumulator, which never
contains the pattern findings. -/
theorem C3_entropy_not_deduplicated_against_patterns :
    (secretAnalyzeLine defaultSecretConfig "creds.py" 1 pwSecretLine).map
        (fun i => (i.line, i.description)) =
      [(1, "Hardcoded Password"), (1, "High-entropy string")] := by
  have h1 : (secretCheckPatterns pwSecretLine 1 "creds.py").map
      (fun i => (i.line, i.description)) = [(1, "Hardcoded Password")] := by decide
  have h2 : entropyCandidates pwSecretLine = [pwCandidate] := by decide
  have hce : (check_entropy defaultSecretConfig pwSecretLine 1 "creds.py").map
      (fun i => (i.line, i.description)) = [(1, "High-entropy string")] := by
    unfold check_entropy
    rw [h2]
    simp only [entropyLoop]
    rw [calculate_pwCandidate]
    rw [if_neg (by decide), if_pos (by norm_num [defaultSecretConfig]),
      if_pos (by decide), if_neg (by decide)]
    rfl
  simp only [secretAnalyzeLine]
  rw [if_neg (by decide), if_neg (by decide), if_neg (by decide), List.map_append, h1, hce]
  rfl

end TrustSkill
